import Mathlib

/-!
Shallow embedding of the WebAuthn two-factor authentication server
(src/libs/auth.js) and proofs about its authentication state machine,
credential registry and origin resolution.

Conventions of the embedding:
* JavaScript values that may be `undefined` are modelled as `Option`.
* JS truthiness of the session fields read by the handlers is captured by
  `truthyS` (both `undefined` and the empty string are falsy).
* Express response semantics: a handler may attempt several
  `res.status(..).json(..)` calls (the source is missing several `return`
  statements); the first attempt succeeds and every later attempt raises
  ERR_HTTP_HEADERS_SENT.  `trySend` implements this; the response the HTTP
  caller receives is the single successfully sent one (`respOf`).
* Uncaught JS exceptions are modelled by `Except`, whose error value carries
  the mutated state (JS exceptions do not roll back assignments).
* The external verifier (the fido2 library) and the e-mail validator are
  collaborators outside src/libs/auth.js; they appear as function parameters
  and the theorems quantify over them (constraining them only where the
  library contract is needed, stated at the use site).
-/

namespace WebauthnTwoFactor

-- ---------------------------------------------------------------------------
-- Configuration constants (auth.js lines 46-71)
-- ---------------------------------------------------------------------------

/-- Environment variables read by auth.js. -/
structure Env where
  NODE_ENV : String
  HOSTNAME : String
  ANDROID_SHA256HASH : String
  ORIGIN : String
deriving DecidableEq, Repr

/-- authSettings.RP_ID: localhost in development, else the HOSTNAME env var. -/
def rpID (env : Env) : String :=
  if env.NODE_ENV == "development" then "localhost" else env.HOSTNAME

def authTypes_SINGLE_FACTOR : String := "sfa"
def authTypes_TWO_FACTOR : String := "2fa"

def authStatuses_NEED_SECOND_FACTOR : String := "needSecondFactor"
def authStatuses_COMPLETE : String := "complete"

/-- auth.js line 70: the single generic error message. -/
def GENERIC_AUTH_ERROR_MESSAGE : String :=
  "Username or password incorrect or credential not found or user verification failed"

/-- The template literal `Authentication failed: ...` used by the
authenticate-two-factor route (auth.js lines 370, 379, 393). -/
def authFailedText : String :=
  "Authentication failed: " ++ GENERIC_AUTH_ERROR_MESSAGE

-- ---------------------------------------------------------------------------
-- Data model (auth.js lines 157-169 and 584-591)
-- ---------------------------------------------------------------------------

/-- A stored credential, with exactly the keys written by the
POST /credential route (auth.js lines 584-594). -/
structure Credential where
  publicKey : String
  credId : String
  name : String
  transports : List String
  creationDate : Nat
  isResidentKey : Option Bool := none
deriving DecidableEq, Repr

/-- JS property access `cred.credID` (auth.js line 581).  Stored credentials
are created with the keys of `Credential` only; no code path ever writes a
`credID` property, so reading it always yields `undefined`. -/
def Credential.credIDProp (_ : Credential) : Option String := none

/-- A user record as created by createOrGetUser (auth.js lines 161-165). -/
structure User where
  username : String
  id : String
  credentials : List Credential
deriving DecidableEq, Repr

/-- The express-session record.  `name` is "main" for a fully authenticated
session; `isPasswordCorrect` is false when the JS field is undefined or
false. -/
structure Session where
  name : Option String := none
  username : Option String := none
  isPasswordCorrect : Bool := false
  authStatus : Option String := none
  challenge : Option String := none
deriving DecidableEq, Repr

/-- The session store: token-indexed session records plus the counter from
which fresh tokens are allocated. -/
structure Store where
  entries : List (Nat × Session)
  nextToken : Nat
deriving DecidableEq, Repr

/-- A JSON response body (only the fields the routes ever set). -/
structure Resp where
  status : Nat
  error : Option String := none
  msg : Option String := none
  authStatus : Option String := none
  user : Option User := none
deriving DecidableEq, Repr

/-- Server state threaded through a request: the response object (`sent`),
the session store, the token and record of the current request session, and
the lowdb user table. -/
structure St where
  sent : Option Resp := none
  store : Store
  token : Nat
  session : Session
  db : List User
deriving DecidableEq, Repr

/-- JS exceptions that the modelled code can raise. -/
inductive Exc where
  | headersSent
  | typeError
  | jsError (msg : String)
deriving DecidableEq, Repr

/-- The `message` property of a raised exception, as read by the catch
blocks (`e.message`). -/
def excMessage : Exc → String
  | .headersSent => "Cannot set headers after they are sent to the client"
  | .typeError => "Cannot read properties of undefined"
  | .jsError m => m

/-- One step outcome: either the updated state, or an exception carrying the
state at the point of the throw. -/
abbrev HandlerResult := Except (Exc × St) St

/-- `res.status(..).json(..)`: succeeds only if nothing was sent yet,
otherwise raises ERR_HTTP_HEADERS_SENT. -/
def trySend (r : Resp) (st : St) : HandlerResult :=
  match st.sent with
  | none => .ok { st with sent := some r }
  | some _ => .error (.headersSent, st)

/-- The state after the handler, for both normal and exceptional exit. -/
def finalSt : HandlerResult → St
  | .ok st => st
  | .error (_, st) => st

/-- The response the HTTP caller receives: the first (only) successful send. -/
def respOf (r : HandlerResult) : Option Resp := (finalSt r).sent

-- ---------------------------------------------------------------------------
-- Utils (auth.js lines 78-118)
-- ---------------------------------------------------------------------------

/-- auth.js lines 78-81: the password is never actually checked. -/
def isPasswordCorrect (_username _password : String) : Bool :=
  true

/-- auth.js lines 83-88: two-factor iff at least one credential registered. -/
def getAuthType (credentials : List Credential) : String :=
  if credentials.length > 0 then authTypes_TWO_FACTOR else authTypes_SINGLE_FACTOR

/-- JS truthiness of an optional string (undefined and "" are falsy). -/
def truthyS : Option String → Bool
  | none => false
  | some s => s != ""

-- JS `str.split(":")` (getOrigin, auth.js line 109), on the colon separator.
def splitColonAux : List Char → List Char → List String
  | [], acc => [String.mk acc.reverse]
  | c :: cs, acc =>
    if c = ':' then String.mk acc.reverse :: splitColonAux cs []
    else splitColonAux cs (c :: acc)

def splitColon (s : String) : List String := splitColonAux s.data []

/-- Value of one hexadecimal digit. -/
def hexDigitVal (c : Char) : Option Nat :=
  if '0' ≤ c ∧ c ≤ '9' then some (c.toNat - '0'.toNat)
  else if 'a' ≤ c ∧ c ≤ 'f' then some (c.toNat - 'a'.toNat + 10)
  else if 'A' ≤ c ∧ c ≤ 'F' then some (c.toNat - 'A'.toNat + 10)
  else none

def parseIntHexAux : List Char → Nat → Nat
  | [], acc => acc
  | c :: cs, acc =>
    match hexDigitVal c with
    | some d => parseIntHexAux cs (acc * 16 + d)
    | none => acc

/-- JS `parseInt(h, 16)`: the maximal leading run of hex digits, NaN (none)
if the string does not start with a hex digit. -/
def parseIntHex (s : String) : Option Nat :=
  match s.data with
  | [] => none
  | c :: _ =>
    match hexDigitVal c with
    | none => none
    | some _ => some (parseIntHexAux s.data 0)

/-- `Buffer.from` coerces each array element to a byte: NaN becomes 0 and
larger numbers are reduced mod 256. -/
def bufferByte : Option Nat → Nat
  | none => 0
  | some n => n % 256

def base64urlAlphabet : List Char :=
  "ABCDEFGHIJKLMNOPQRSTUVWXYZabcdefghijklmnopqrstuvwxyz0123456789-_".data

def b64Char (n : Nat) : Char := base64urlAlphabet.getD n 'A'

/-- base64url encoding of a byte list (the base64url package: standard
base64 with the url alphabet and no padding). -/
def base64urlEncodeBytes : List Nat → List Char
  | [] => []
  | [b1] => [b64Char (b1 / 4), b64Char (b1 % 4 * 16)]
  | [b1, b2] =>
    [b64Char (b1 / 4), b64Char (b1 % 4 * 16 + b2 / 16), b64Char (b2 % 16 * 4)]
  | b1 :: b2 :: b3 :: rest =>
    b64Char (b1 / 4) :: b64Char (b1 % 4 * 16 + b2 / 16) ::
      b64Char (b2 % 16 * 4 + b3 / 64) :: b64Char (b3 % 64) ::
      base64urlEncodeBytes rest

def base64urlEncode (bytes : List Nat) : String :=
  String.mk (base64urlEncodeBytes bytes)

/-- The byte array computed from ANDROID_SHA256HASH (auth.js lines 109-111). -/
def androidHashBytes (env : Env) : List Nat :=
  ((splitColon env.ANDROID_SHA256HASH).map parseIntHex).map bufferByte

/-- auth.js lines 106-118: expected origin by user agent.
`userAgent.indexOf("okhttp") === 0` is the starts-with test. -/
def getOrigin (env : Env) (userAgent : String) : String :=
  if "okhttp".data.isPrefixOf userAgent.data then
    "android:apk-key-hash:" ++ base64urlEncode (androidHashBytes env)
  else
    env.ORIGIN

-- ---------------------------------------------------------------------------
-- Database actions (auth.js lines 130-169)
-- ---------------------------------------------------------------------------

/-- auth.js lines 130-135; with an undefined username the lodash matcher
finds no user (every stored username is a string). -/
def findUserByUsername (username : Option String) (db : List User) : Option User :=
  match username with
  | none => none
  | some un => db.find? (fun x => x.username == un)

/-- auth.js lines 143-148: assign the given record onto the first user with
this username. -/
def updateUser (un : String) (newUser : User) : List User → List User
  | [] => []
  | u :: rest =>
    if u.username == un then newUser :: rest else u :: updateUser un newUser rest

/-- auth.js lines 150-155: replace the credential list of the first user
with this username. -/
def updateCredentials (un : String) (credentials : List Credential) :
    List User → List User
  | [] => []
  | u :: rest =>
    if u.username == un then { u with credentials := credentials } :: rest
    else u :: updateCredentials un credentials rest

/-- auth.js lines 157-169.  `freshId` stands for
base64url(crypto.randomBytes(32)) generated for a new user. -/
def createOrGetUser (username : String) (freshId : String) (db : List User) :
    User × List User :=
  match db.find? (fun x => x.username == username) with
  | some u => (u, db)
  | none =>
    let u : User := { username := username, id := freshId, credentials := [] }
    (u, db ++ [u])

-- ---------------------------------------------------------------------------
-- completeAuthentication (auth.js lines 203-223)
-- ---------------------------------------------------------------------------

/-- The response sent when completeAuthentication succeeds. -/
def completeResp : Resp :=
  { status := 200, msg := some "Authentication complete",
    authStatus := some authStatuses_COMPLETE }

/-- The 401 response of the authenticate-two-factor route. -/
def authFailed401 : Resp := { status := 401, error := some authFailedText }

/-- auth.js lines 203-223.  `req.session.regenerate` destroys the entry of
the current token and switches the request to a fresh, empty session under a
freshly allocated token; the new record reaches the store only when
`req.session.save` persists it.  Both callbacks ignore their `err` argument,
which `saveOk = false` makes observable: the save does not persist but the
code continues identically.  The 200 send can still raise ERR_HTTP_HEADERS_SENT
when an earlier response went out (the routes calling this lack `return`
after their error sends). -/
def completeAuthentication (saveOk : Bool) (st : St) : HandlerResult :=
  -- const { username, isPasswordCorrect } = req.session
  let username := st.session.username
  let pw := st.session.isPasswordCorrect
  if !(truthyS username && pw) then
    trySend { status := 401, error := some GENERIC_AUTH_ERROR_MESSAGE } st
  else
    let newTok := st.store.nextToken
    let store1 : Store :=
      { entries := st.store.entries.filter (fun e => e.1 ≠ st.token),
        nextToken := st.store.nextToken + 1 }
    -- callback: req.session.name = "main"; req.session.username = username
    let s1 : Session := { name := some "main", username := username }
    let store2 : Store :=
      if saveOk then { store1 with entries := (newTok, s1) :: store1.entries }
      else store1
    let st1 : St := { st with store := store2, token := newTok, session := s1 }
    trySend completeResp st1

-- ---------------------------------------------------------------------------
-- POST /initialize-authentication (auth.js lines 250-292)
-- ---------------------------------------------------------------------------

/-- auth.js lines 250-292.  `isEmail` is the external validator.js check;
`username` and `password` stand for the request body values after the escape
sanitizers; `freshId` is the random id used if a user must be created. -/
def initializeAuthentication (isEmail : String → Bool) (saveOk : Bool)
    (freshId username password : String) (st : St) : HandlerResult :=
  -- check("username").notEmpty().isEmail(), check("password").notEmpty()
  if !(username != "" && isEmail username && password != "") then
    trySend
      { status := 400,
        error := some "Username or password is empty or contains invalid characters" } st
  else
    let (user, db1) := createOrGetUser username freshId st.db
    let s1 : Session := { st.session with
      username := some username,
      isPasswordCorrect := isPasswordCorrect username password }
    let st1 : St := { st with db := db1, session := s1 }
    let authType := getAuthType user.credentials
    if authType == authTypes_SINGLE_FACTOR then
      completeAuthentication saveOk st1
    else if authType == authTypes_TWO_FACTOR then
      let st2 : St := { st1 with session :=
        { st1.session with authStatus := some authStatuses_NEED_SECOND_FACTOR } }
      trySend
        { status := 200,
          msg := some "Need two factors because two-factor-authentication was configured for this account",
          authStatus := some authStatuses_NEED_SECOND_FACTOR } st2
    else
      trySend { status := 500, error := some "Unkown authentication type" } st1

-- ---------------------------------------------------------------------------
-- POST /authenticate-two-factor (auth.js lines 358-403)
-- ---------------------------------------------------------------------------

/-- The credential object submitted by the client; only `id` is inspected by
auth.js itself, the rest is consumed by the external verifier. -/
structure ClientCred where
  id : String
  payload : String := ""
deriving DecidableEq, Repr

/-- Outcome of fido2.verifyAssertionResponse: a `{verified}` result or a
thrown exception. -/
inductive VerifyOutcome where
  | ok (verified : Bool)
  | err (msg : String)
deriving DecidableEq, Repr

/-- The external assertion verifier, applied to (credential,
expectedChallenge, expectedOrigin, expectedRPID, authenticator). -/
abbrev Verifier :=
  ClientCred → Option String → String → String → Option Credential → VerifyOutcome

/-- auth.js lines 358-403.  The three error sends before and inside the try
block lack `return`, so execution falls through them; `trySend` raises on a
second send and the catch block treats that raise like any other exception
(clearing the challenge and attempting a 400 with `e.message`). -/
def authenticateTwoFactor (verify : Verifier) (saveOk : Bool) (env : Env)
    (ua : String) (cc : ClientCred) (st : St) : HandlerResult :=
  let expectedOrigin := getOrigin env ua
  let expectedRPID := rpID env
  let username := st.session.username
  let pw := st.session.isPasswordCorrect
  let expectedChallenge := st.session.challenge
  -- if (!username || !isPasswordCorrect) res.status(401)... [no return]
  let step1 : HandlerResult :=
    if !(truthyS username && pw) then trySend authFailed401 st else .ok st
  match step1 with
  | .error e => .error e
  | .ok sta =>
    -- const user = findUserByUsername(username); user.credentials throws on
    -- an unknown user (user is undefined)
    match findUserByUsername username sta.db with
    | none => .error (.typeError, sta)
    | some user =>
      let credentialFromServer :=
        user.credentials.find? (fun cred => cred.credId == cc.id)
      -- if (!credentialFromServer) res.status(401)... [no return]
      let step2 : HandlerResult :=
        if credentialFromServer.isNone then trySend authFailed401 sta else .ok sta
      match step2 with
      | .error e => .error e
      | .ok stb =>
        let tryBlock : HandlerResult :=
          match verify cc expectedChallenge expectedOrigin expectedRPID
              credentialFromServer with
          | .err m => .error (.jsError m, stb)
          | .ok verified =>
            -- if (!verified) res.status(401)... [no return]
            let step3 : HandlerResult :=
              if !verified then trySend authFailed401 stb else .ok stb
            match step3 with
            | .error e => .error e
            | .ok stc =>
              -- updateUser(username, user); with an undefined username the
              -- lodash matcher updates nothing
              let db1 := match username with
                | some un => updateUser un user stc.db
                | none => stc.db
              -- delete req.session.challenge
              let std : St :=
                { stc with db := db1,
                           session := { stc.session with challenge := none } }
              completeAuthentication saveOk std
        match tryBlock with
        | .ok stOk => .ok stOk
        | .error (exc, stE) =>
          -- catch: delete req.session.challenge; res.status(400) e.message
          let stC : St := { stE with
            session := { stE.session with challenge := none } }
          trySend { status := 400, error := some (excMessage exc) } stC

-- ---------------------------------------------------------------------------
-- POST /credential (auth.js lines 548-608)
-- ---------------------------------------------------------------------------

/-- The fields of authenticatorInfo used by the registration route. -/
structure AuthenticatorInfo where
  base64PublicKey : String
  base64CredentialID : String
deriving DecidableEq, Repr

/-- The client extension results forwarded as `credProps`. -/
structure CredProps where
  rk : Bool
deriving DecidableEq, Repr

/-- The registration request body fields that auth.js destructures. -/
structure RegBody where
  id : String
  transports : Option (List String) := none
  credProps : Option CredProps := none
  payload : String := ""
deriving DecidableEq, Repr

/-- Outcome of fido2.verifyAttestationResponse. -/
inductive AttestOutcome where
  | ok (verified : Bool) (info : AuthenticatorInfo)
  | err (msg : String)
deriving DecidableEq, Repr

/-- The external attestation verifier, applied to (body, expectedChallenge,
expectedOrigin, expectedRPID). -/
abbrev Attester := RegBody → Option String → String → String → AttestOutcome

/-- auth.js lines 548-608.  Note the existence check on line 581 compares
`cred.credID` (a property no credential ever has, `Credential.credIDProp`)
against the new base64CredentialID.  `now` stands for Date.now(). -/
def registerCredential (attest : Attester) (env : Env) (ua : String)
    (body : RegBody) (now : Nat) (st : St) : HandlerResult :=
  let expectedChallenge := st.session.challenge
  let username := st.session.username
  let expectedOrigin := getOrigin env ua
  let expectedRPID := rpID env
  let tryBlock : HandlerResult :=
    match attest body expectedChallenge expectedOrigin expectedRPID with
    | .err m => .error (.jsError m, st)
    | .ok verified info =>
      if !verified then
        trySend { status := 400, error := some "User verification failed" } st
      else
        -- validationResult is empty: check("credId").escape() only sanitizes
        match findUserByUsername username st.db with
        | none => .error (.typeError, st)
        | some user =>
          let existingCred := user.credentials.find?
            (fun cred => cred.credIDProp == some info.base64CredentialID)
          let user1 :=
            if existingCred.isNone then
              { user with credentials := user.credentials ++
                [{ publicKey := info.base64PublicKey,
                   credId := info.base64CredentialID,
                   name := "",
                   transports := body.transports.getD [],
                   creationDate := now,
                   isResidentKey := body.credProps.map (fun p => p.rk) }] }
            else user
          let db1 := match username with
            | some un => updateUser un user1 st.db
            | none => st.db
          let st1 : St :=
            { st with db := db1,
                      session := { st.session with challenge := none } }
          trySend { status := 200, user := some user1 } st1
  match tryBlock with
  | .ok stOk => .ok stOk
  | .error (exc, stE) =>
    let stC : St := { stE with session := { stE.session with challenge := none } }
    trySend { status := 400, error := some (excMessage exc) } stC

-- ---------------------------------------------------------------------------
-- PUT /credential (auth.js lines 484-519)
-- ---------------------------------------------------------------------------

/-- Overwrite the name of the credential at the given index (the in-place
mutation `updatedCredentials[index].name = ...`). -/
def setCredName (stored : String) : Nat → List Credential → List Credential
  | _, [] => []
  | 0, c :: cs => { c with name := stored } :: cs
  | n + 1, c :: cs => c :: setCredName stored n cs

/-- auth.js lines 484-519.  A missing credId makes findIndex return -1 and
the write `updatedCredentials[-1].name = ...` raise a TypeError, caught by
the catch block before any store update.  `newName || ""` stores the empty
string when the (sanitized) name is empty. -/
def putCredential (credId newName : String) (st : St) : HandlerResult :=
  let tryBlock : HandlerResult :=
    match findUserByUsername st.session.username st.db with
    | none => .error (.typeError, st)
    | some user =>
      match user.credentials.findIdx? (fun el => el.credId == credId) with
      | none => .error (.typeError, st)
      | some i =>
        let stored := if newName == "" then "" else newName
        let updatedCredentials := setCredName stored i user.credentials
        -- the array copy shares the credential objects, so the response
        -- user reflects the rename
        let user1 := { user with credentials := updatedCredentials }
        let db1 := match st.session.username with
          | some un => updateCredentials un updatedCredentials st.db
          | none => st.db
        trySend { status := 200, user := some user1 } { st with db := db1 }
  match tryBlock with
  | .ok stOk => .ok stOk
  | .error (exc, stE) =>
    trySend { status := 400, error := some (excMessage exc) } stE

-- ---------------------------------------------------------------------------
-- DELETE /credential (auth.js lines 454-463)
-- ---------------------------------------------------------------------------

/-- auth.js lines 454-463: filter out the credential and store the result
(the response carries the stale pre-filter user object). -/
def deleteCredential (credId : String) (st : St) : HandlerResult :=
  match findUserByUsername st.session.username st.db with
  | none => .error (.typeError, st)
  | some user =>
    let updatedCredentials := user.credentials.filter (fun cred => cred.credId != credId)
    let db1 := match st.session.username with
      | some un => updateCredentials un updatedCredentials st.db
      | none => st.db
    trySend { status := 200, user := some user } { st with db := db1 }

-- ---------------------------------------------------------------------------
-- Shared lemmas
-- ---------------------------------------------------------------------------

/-- Writing the user object found for a username back under that username
leaves the table unchanged (lodash assign of an object onto itself). -/
theorem updateUser_self (un : String) (user : User) :
    ∀ db : List User, db.find? (fun x => x.username == un) = some user →
      updateUser un user db = db := by
  intro db
  induction db with
  | nil => intro h; simp [List.find?] at h
  | cons a as ih =>
    intro h
    rw [List.find?_cons] at h
    unfold updateUser
    cases hx : (a.username == un) with
    | true =>
      rw [hx] at h
      simp only [if_pos rfl] at h
      simp [hx, ← Option.some_inj.mp h]
    | false =>
      rw [hx] at h
      simp only [Bool.false_eq_true, if_neg] at h
      simp [hx, ih h]

/-- The 200 response of the two-factor route. -/
def needSecondResp : Resp :=
  { status := 200,
    msg := some "Need two factors because two-factor-authentication was configured for this account",
    authStatus := some authStatuses_NEED_SECOND_FACTOR }

/-- Characterization of /authenticate-two-factor when the session guard
fails (unknown/empty username or password flag unset): the caller always
receives the single generic 401, and neither the session identity fields
nor the store, token or user table change. -/
theorem atf_guardFalse (verify : Verifier) (saveOk : Bool) (env : Env)
    (ua : String) (cc : ClientCred) (st : St)
    (hsent : st.sent = none)
    (hg : (truthyS st.session.username && st.session.isPasswordCorrect) = false) :
    respOf (authenticateTwoFactor verify saveOk env ua cc st) = some authFailed401
    ∧ (finalSt (authenticateTwoFactor verify saveOk env ua cc st)).store = st.store
    ∧ (finalSt (authenticateTwoFactor verify saveOk env ua cc st)).token = st.token
    ∧ (finalSt (authenticateTwoFactor verify saveOk env ua cc st)).db = st.db
    ∧ (finalSt (authenticateTwoFactor verify saveOk env ua cc st)).session.name
        = st.session.name
    ∧ (finalSt (authenticateTwoFactor verify saveOk env ua cc st)).session.username
        = st.session.username
    ∧ (finalSt (authenticateTwoFactor verify saveOk env ua cc st)).session.isPasswordCorrect
        = st.session.isPasswordCorrect
    ∧ (finalSt (authenticateTwoFactor verify saveOk env ua cc st)).session.authStatus
        = st.session.authStatus := by
  unfold authenticateTwoFactor
  simp only [hg, Bool.not_false, if_pos, trySend, hsent]
  cases hfu : findUserByUsername st.session.username st.db with
  | none => simp [finalSt, respOf]
  | some user =>
    cases hcred : user.credentials.find? (fun cred => cred.credId == cc.id) with
    | none => simp [hcred, trySend, finalSt, respOf]
    | some c =>
      simp only [hcred, Option.isNone_none, Option.isNone_some, Bool.false_eq_true,
        if_neg, if_pos, trySend]
      cases hv : verify cc st.session.challenge (getOrigin env ua) (rpID env) (some c) with
      | err m => simp [hv, trySend, finalSt, respOf]
      | ok v =>
        cases v with
        | false => simp [hv, trySend, finalSt, respOf]
        | true =>
          cases hun : st.session.username with
          | none =>
            rw [hun] at hfu
            simp [findUserByUsername] at hfu
          | some un =>
            rw [hun] at hfu
            simp only [findUserByUsername] at hfu
            have hdb := updateUser_self un user st.db hfu
            have hg2 := hg
            rw [hun] at hg2
            simp [hv, hun, hdb, hg2, completeAuthentication, trySend, finalSt, respOf]

/-- Characterization of /authenticate-two-factor when the guard passes but
no user record exists: the handler throws before sending anything. -/
theorem atf_noUser (verify : Verifier) (saveOk : Bool) (env : Env)
    (ua : String) (cc : ClientCred) (st : St)
    (hg : (truthyS st.session.username && st.session.isPasswordCorrect) = true)
    (hfu : findUserByUsername st.session.username st.db = none) :
    authenticateTwoFactor verify saveOk env ua cc st = .error (.typeError, st) := by
  unfold authenticateTwoFactor
  simp [hg, hfu]

/-- Characterization of /authenticate-two-factor when the guard passes and
the user exists but no stored credential matches the asserted id: the
caller receives the generic 401 whatever the verifier then does. -/
theorem atf_noCred (verify : Verifier) (saveOk : Bool) (env : Env)
    (ua : String) (cc : ClientCred) (st : St) (user : User)
    (hsent : st.sent = none)
    (hg : (truthyS st.session.username && st.session.isPasswordCorrect) = true)
    (hfu : findUserByUsername st.session.username st.db = some user)
    (hcred : user.credentials.find? (fun cred => cred.credId == cc.id) = none) :
    respOf (authenticateTwoFactor verify saveOk env ua cc st) = some authFailed401 := by
  unfold authenticateTwoFactor
  simp only [hg, Bool.not_true, Bool.false_eq_true, if_false, trySend, hsent]
  rw [hfu]
  simp only [hcred, Option.isNone_none, if_pos, trySend]
  cases hv : verify cc st.session.challenge (getOrigin env ua) (rpID env) none with
  | err m => simp [trySend, finalSt, respOf]
  | ok v =>
    cases v with
    | false => simp [trySend, finalSt, respOf]
    | true =>
      cases hun : st.session.username with
      | none =>
        rw [hun] at hfu
        simp [findUserByUsername] at hfu
      | some un =>
        rw [hun] at hfu
        simp only [findUserByUsername] at hfu
        have hdb := updateUser_self un user st.db hfu
        have hg2 := hg
        rw [hun] at hg2
        simp [hun, hdb, hg2, completeAuthentication, trySend, finalSt, respOf]

/-- Characterization of /authenticate-two-factor on the main path (guard
passes, user and credential found), by verifier outcome: a thrown
verification error surfaces as a 400 carrying the exception message, an
unverified result as the generic 401, a verified one as the completion
response; in all three cases the pending challenge ends cleared. -/
theorem atf_main (verify : Verifier) (saveOk : Bool) (env : Env)
    (ua : String) (cc : ClientCred) (st : St) (user : User) (c : Credential)
    (hsent : st.sent = none)
    (hg : (truthyS st.session.username && st.session.isPasswordCorrect) = true)
    (hfu : findUserByUsername st.session.username st.db = some user)
    (hcred : user.credentials.find? (fun cred => cred.credId == cc.id) = some c) :
    (∀ m, verify cc st.session.challenge (getOrigin env ua) (rpID env) (some c) = .err m →
      authenticateTwoFactor verify saveOk env ua cc st
        = .ok { st with sent := some { status := 400, error := some m },
                        session := { st.session with challenge := none } })
    ∧ (verify cc st.session.challenge (getOrigin env ua) (rpID env) (some c) = .ok false →
      respOf (authenticateTwoFactor verify saveOk env ua cc st) = some authFailed401
      ∧ (finalSt (authenticateTwoFactor verify saveOk env ua cc st)).session.challenge = none)
    ∧ (verify cc st.session.challenge (getOrigin env ua) (rpID env) (some c) = .ok true →
      respOf (authenticateTwoFactor verify saveOk env ua cc st) = some completeResp
      ∧ (finalSt (authenticateTwoFactor verify saveOk env ua cc st)).session.challenge = none) := by
  have hun : ∃ un, st.session.username = some un := by
    cases hx : st.session.username with
    | none => rw [hx] at hfu; simp [findUserByUsername] at hfu
    | some un => exact ⟨un, rfl⟩
  obtain ⟨un, hun⟩ := hun
  have hfuList := hfu
  rw [hun] at hfuList
  simp only [findUserByUsername] at hfuList
  have hdb := updateUser_self un user st.db hfuList
  have hg2 := hg
  rw [hun] at hg2
  refine ⟨?_, ?_, ?_⟩
  · intro m hv
    unfold authenticateTwoFactor
    simp only [hg, Bool.not_true, Bool.false_eq_true, if_false, trySend, hsent]
    rw [hfu]
    simp only [hcred, Option.isNone_some, Bool.false_eq_true, if_false]
    rw [hv]
    simp [trySend, hsent, finalSt, respOf, excMessage]
  · intro hv
    unfold authenticateTwoFactor
    simp only [hg, Bool.not_true, Bool.false_eq_true, if_false, trySend, hsent]
    rw [hfu]
    simp only [hcred, Option.isNone_some, Bool.false_eq_true, if_false]
    rw [hv]
    simp [hun, hdb, hg2, completeAuthentication, trySend, hsent, finalSt, respOf]
  · intro hv
    unfold authenticateTwoFactor
    simp only [hg, Bool.not_true, Bool.false_eq_true, if_false, trySend, hsent]
    rw [hfu]
    simp only [hcred, Option.isNone_some, Bool.false_eq_true, if_false]
    rw [hv]
    simp [hun, hdb, hg2, completeAuthentication, trySend, hsent, finalSt, respOf]

/-- A two-factor attempt on a session with no pending challenge can never
produce the completion response, as long as the external verifier does not
report `verified` for an undefined expected challenge (the fido2 library
throws on a challenge mismatch, and undefined matches no client data). -/
theorem atf_noChallenge_notComplete (verify : Verifier) (saveOk : Bool)
    (env : Env) (ua : String) (cc : ClientCred) (st : St)
    (hsent : st.sent = none)
    (hch : st.session.challenge = none)
    (hv : ∀ cc2 o r sc, verify cc2 none o r sc ≠ .ok true) :
    respOf (authenticateTwoFactor verify saveOk env ua cc st) ≠ some completeResp := by
  cases hg : (truthyS st.session.username && st.session.isPasswordCorrect) with
  | false =>
    have h := (atf_guardFalse verify saveOk env ua cc st hsent hg).1
    rw [h]
    simp [completeResp, authFailed401, authStatuses_COMPLETE]
  | true =>
    cases hfu : findUserByUsername st.session.username st.db with
    | none =>
      have h := atf_noUser verify saveOk env ua cc st hg hfu
      rw [h]
      simp [respOf, finalSt, hsent]
    | some user =>
      cases hcred : user.credentials.find? (fun cred => cred.credId == cc.id) with
      | none =>
        have h := atf_noCred verify saveOk env ua cc st user hsent hg hfu hcred
        rw [h]
        simp [completeResp, authFailed401, authStatuses_COMPLETE]
      | some c =>
        have hmain := atf_main verify saveOk env ua cc st user c hsent hg hfu hcred
        cases hvres : verify cc st.session.challenge (getOrigin env ua) (rpID env) (some c) with
        | err m =>
          have h := hmain.1 m hvres
          rw [h]
          simp [respOf, finalSt, completeResp]
        | ok v =>
          cases v with
          | false =>
            have h := (hmain.2.1 hvres).1
            rw [h]
            simp [completeResp, authFailed401, authStatuses_COMPLETE]
          | true =>
            rw [hch] at hvres
            exact absurd hvres (hv cc (getOrigin env ua) (rpID env) (some c))

/-- Characterization of completeAuthentication when the session guard holds:
the result is always the 200 completion response on a regenerated session
under a fresh token; the old token is dropped from the store, and the new
record is persisted exactly when the save succeeds. -/
theorem completeAuthentication_spec (saveOk : Bool) (st : St)
    (hsent : st.sent = none)
    (hg : (truthyS st.session.username && st.session.isPasswordCorrect) = true)
    (htok : st.token < st.store.nextToken)
    (hfresh : ∀ e ∈ st.store.entries, e.1 < st.store.nextToken) :
    ∃ st2, completeAuthentication saveOk st = .ok st2
      ∧ st2.sent = some completeResp
      ∧ st2.token = st.store.nextToken
      ∧ st2.token ≠ st.token
      ∧ st2.session = { name := some "main", username := st.session.username }
      ∧ (∀ s, (st.token, s) ∉ st2.store.entries)
      ∧ (saveOk = true → (st2.token, st2.session) ∈ st2.store.entries)
      ∧ (saveOk = false → ∀ s, (st2.token, s) ∉ st2.store.entries) := by
  cases saveOk with
  | false =>
    unfold completeAuthentication
    simp only [hg, Bool.not_true, Bool.false_eq_true, if_false, trySend, hsent]
    refine ⟨_, rfl, rfl, rfl, ne_of_gt htok, rfl, ?_, ?_, ?_⟩
    · intro s hs
      simp [List.mem_filter] at hs
    · intro h
      cases h
    · intro _ s hs
      rw [List.mem_filter] at hs
      exact absurd (hfresh _ hs.1) (lt_irrefl _)
  | true =>
    unfold completeAuthentication
    simp only [hg, Bool.not_true, Bool.false_eq_true, if_false, if_pos, trySend, hsent]
    refine ⟨_, rfl, rfl, rfl, ne_of_gt htok, rfl, ?_, ?_, ?_⟩
    · intro s hs
      rcases List.mem_cons.mp hs with h | h
      · exact absurd (congrArg Prod.fst h) (Nat.ne_of_lt htok)
      · simp [List.mem_filter] at h
    · intro _
      exact List.mem_cons_self _ _
    · intro h
      cases h

/-- Characterization of /initialize-authentication for a valid request when
the resolved user has no credentials: the single-factor path completes the
authentication at once on a regenerated main session. -/
theorem initAuth_sfa (isEmail : String → Bool) (saveOk : Bool)
    (freshId username password : String) (st : St)
    (hsent : st.sent = none)
    (hvalid : (username != "" && isEmail username && password != "") = true)
    (hcreds : (createOrGetUser username freshId st.db).1.credentials = []) :
    ∃ st2, initializeAuthentication isEmail saveOk freshId username password st = .ok st2
      ∧ st2.sent = some completeResp
      ∧ st2.session.name = some "main"
      ∧ st2.session.username = some username
      ∧ st2.db = (createOrGetUser username freshId st.db).2 := by
  have hne : (username != "") = true := by
    cases h1 : (username != "") with
    | true => rfl
    | false => rw [h1] at hvalid; simp at hvalid
  unfold initializeAuthentication
  simp only [hvalid, Bool.not_true, Bool.false_eq_true, if_false]
  cases hcg : createOrGetUser username freshId st.db with
  | mk user db1 =>
    rw [hcg] at hcreds
    simp only at hcreds
    simp only [hcreds, getAuthType, List.length_nil, gt_iff_lt, lt_irrefl, if_false,
      authTypes_SINGLE_FACTOR, beq_self_eq_true, if_pos]
    unfold completeAuthentication
    simp only [truthyS, hne, isPasswordCorrect, Bool.and_self, Bool.not_true,
      Bool.false_eq_true, if_false, trySend, hsent]
    exact ⟨_, rfl, rfl, rfl, rfl, rfl⟩

/-- Characterization of /initialize-authentication for a valid request when
the resolved user has credentials: the session records the pending second
factor and the caller is asked for it. -/
theorem initAuth_2fa (isEmail : String → Bool) (saveOk : Bool)
    (freshId username password : String) (st : St)
    (hsent : st.sent = none)
    (hvalid : (username != "" && isEmail username && password != "") = true)
    (hcreds : (createOrGetUser username freshId st.db).1.credentials ≠ []) :
    ∃ st2, initializeAuthentication isEmail saveOk freshId username password st = .ok st2
      ∧ st2.sent = some needSecondResp
      ∧ st2.session.authStatus = some authStatuses_NEED_SECOND_FACTOR
      ∧ st2.session.username = some username
      ∧ st2.session.isPasswordCorrect = true
      ∧ st2.session.name = st.session.name
      ∧ st2.token = st.token
      ∧ st2.store = st.store
      ∧ st2.db = (createOrGetUser username freshId st.db).2 := by
  unfold initializeAuthentication
  simp only [hvalid, Bool.not_true, Bool.false_eq_true, if_false]
  cases hcg : createOrGetUser username freshId st.db with
  | mk user db1 =>
    rw [hcg] at hcreds
    simp only at hcreds
    have hlen : user.credentials.length > 0 := List.length_pos.mpr hcreds
    simp only [getAuthType, hlen, if_pos, authTypes_TWO_FACTOR, authTypes_SINGLE_FACTOR]
    simp only [show (("2fa" : String) == "sfa") = false from rfl, Bool.false_eq_true,
      if_false, show (("2fa" : String) == "2fa") = true from rfl, if_pos,
      trySend, hsent, isPasswordCorrect]
    exact ⟨_, rfl, rfl, rfl, rfl, rfl, rfl, rfl, rfl, rfl⟩

-- ---------------------------------------------------------------------------
-- Concrete fixtures used by witnesses and counterexamples
-- ---------------------------------------------------------------------------

def envDemo : Env :=
  { NODE_ENV := "development", HOSTNAME := "bahnid.example",
    ANDROID_SHA256HASH := "00:01:02", ORIGIN := "https://example.com" }

def credDemo : Credential :=
  { publicKey := "pk", credId := "id1", name := "key", transports := [],
    creationDate := 5 }

def userDemo : User := { username := "a@b.c", id := "uid", credentials := [credDemo] }

def sessDemo : Session :=
  { username := some "a@b.c", isPasswordCorrect := true, challenge := some "ch" }

def stDemo : St :=
  { sent := none, store := { entries := [(0, sessDemo)], nextToken := 1 },
    token := 0, session := sessDemo, db := [userDemo] }

def ccDemo : ClientCred := { id := "id1" }

/-- A verifier that always throws, standing for any exception escaping
fido2.verifyAssertionResponse. -/
def throwingVerifier : Verifier := fun _ _ _ _ _ => .err "boom"

/-- A verifier that always reports verified. -/
def acceptingVerifier : Verifier := fun _ _ _ _ _ => .ok true

def sessPwFalse : Session := { sessDemo with isPasswordCorrect := false }

def stPwFalse : St := { stDemo with session := sessPwFalse }

-- ---------------------------------------------------------------------------
-- Claim theorems
-- ---------------------------------------------------------------------------

/-- C1 (amended): in /authenticate-two-factor the caller receives the same
generic 401 AuthFailed text when the session username is unknown or the
password flag is false, when no stored credential matches, and when the
verifier returns unverified; but when the verifier throws, the caller
instead receives a 400 carrying the exception message itself, so that
fourth failure cause is distinguishable from the other three. -/
theorem C1_generic_error_amended (verify : Verifier) (saveOk : Bool) (env : Env)
    (ua : String) (cc : ClientCred) (st : St)
    (hsent : st.sent = none) :
    ((truthyS st.session.username && st.session.isPasswordCorrect) = false →
      respOf (authenticateTwoFactor verify saveOk env ua cc st) = some authFailed401)
    ∧ (∀ user, (truthyS st.session.username && st.session.isPasswordCorrect) = true →
        findUserByUsername st.session.username st.db = some user →
        user.credentials.find? (fun cred => cred.credId == cc.id) = none →
        respOf (authenticateTwoFactor verify saveOk env ua cc st) = some authFailed401)
    ∧ (∀ user c, (truthyS st.session.username && st.session.isPasswordCorrect) = true →
        findUserByUsername st.session.username st.db = some user →
        user.credentials.find? (fun cred => cred.credId == cc.id) = some c →
        verify cc st.session.challenge (getOrigin env ua) (rpID env) (some c) = .ok false →
        respOf (authenticateTwoFactor verify saveOk env ua cc st) = some authFailed401)
    ∧ (∀ user c m, (truthyS st.session.username && st.session.isPasswordCorrect) = true →
        findUserByUsername st.session.username st.db = some user →
        user.credentials.find? (fun cred => cred.credId == cc.id) = some c →
        verify cc st.session.challenge (getOrigin env ua) (rpID env) (some c) = .err m →
        respOf (authenticateTwoFactor verify saveOk env ua cc st)
          = some { status := 400, error := some m }) := by
  refine ⟨?_, ?_, ?_, ?_⟩
  · intro hg
    exact (atf_guardFalse verify saveOk env ua cc st hsent hg).1
  · intro user hg hfu hcred
    exact atf_noCred verify saveOk env ua cc st user hsent hg hfu hcred
  · intro user c hg hfu hcred hv
    exact ((atf_main verify saveOk env ua cc st user c hsent hg hfu hcred).2.1 hv).1
  · intro user c m hg hfu hcred hv
    rw [(atf_main verify saveOk env ua cc st user c hsent hg hfu hcred).1 m hv]
    rfl

/-- C1 counterexample: on a session with a known username, passed password
check, matching stored credential and pending challenge, a verifier that
throws makes the route answer 400 with the exception message — not the
generic AuthFailed text that the other three failure causes produce, so the
claim that all four causes yield one identical message is false. -/
theorem C1_counterexample :
    respOf (authenticateTwoFactor throwingVerifier true envDemo "Mozilla" ccDemo stDemo)
      = some { status := 400, error := some "boom" }
    ∧ ({ status := 400, error := some "boom" } : Resp) ≠ authFailed401 := by
  refine ⟨rfl, by decide⟩

/-- C1 witness: the amended theorem applied to a concrete flow-skip state. -/
theorem C1_witness :
    respOf (authenticateTwoFactor throwingVerifier true envDemo "Mozilla" ccDemo stPwFalse)
      = some authFailed401 :=
  (C1_generic_error_amended throwingVerifier true envDemo "Mozilla" ccDemo
    stPwFalse rfl).1 rfl

/-- C2: a two-factor attempt that reaches verification on a session holding
a pending challenge always ends with the challenge cleared, whether the
verifier succeeds, returns unverified, or throws; and any later attempt on
a session without a pending challenge — in particular on the state this
attempt leaves behind — cannot produce the completion response, given that
the external verifier never reports verified for an undefined expected
challenge (the fido2 library throws on challenge mismatch). -/
theorem C2_challenge_single_use (verify : Verifier) (saveOk : Bool) (env : Env)
    (ua : String) (cc : ClientCred) (st : St) (user : User) (c : Credential)
    (chal : String)
    (hsent : st.sent = none)
    (_hch : st.session.challenge = some chal)
    (hg : (truthyS st.session.username && st.session.isPasswordCorrect) = true)
    (hfu : findUserByUsername st.session.username st.db = some user)
    (hcred : user.credentials.find? (fun cred => cred.credId == cc.id) = some c) :
    (finalSt (authenticateTwoFactor verify saveOk env ua cc st)).session.challenge = none
    ∧ (∀ (verify2 : Verifier) (saveOk2 : Bool) (env2 : Env) (ua2 : String)
        (cc2 : ClientCred) (st2 : St),
        st2.sent = none → st2.session.challenge = none →
        (∀ cc3 o r sc, verify2 cc3 none o r sc ≠ .ok true) →
        respOf (authenticateTwoFactor verify2 saveOk2 env2 ua2 cc2 st2)
          ≠ some completeResp)
    ∧ (∀ (verify2 : Verifier) (cc2 : ClientCred),
        (∀ cc3 o r sc, verify2 cc3 none o r sc ≠ .ok true) →
        respOf (authenticateTwoFactor verify2 saveOk env ua cc2
          { finalSt (authenticateTwoFactor verify saveOk env ua cc st) with
              sent := none })
          ≠ some completeResp) := by
  have hmain := atf_main verify saveOk env ua cc st user c hsent hg hfu hcred
  have hclear :
      (finalSt (authenticateTwoFactor verify saveOk env ua cc st)).session.challenge
        = none := by
    cases hv : verify cc st.session.challenge (getOrigin env ua) (rpID env) (some c) with
    | err m => rw [hmain.1 m hv]; rfl
    | ok v =>
      cases v with
      | false => exact (hmain.2.1 hv).2
      | true => exact (hmain.2.2 hv).2
  refine ⟨hclear, ?_, ?_⟩
  · intro verify2 saveOk2 env2 ua2 cc2 st2 h1 h2 h3
    exact atf_noChallenge_notComplete verify2 saveOk2 env2 ua2 cc2 st2 h1 h2 h3
  · intro verify2 cc2 h3
    exact atf_noChallenge_notComplete verify2 saveOk env ua cc2 _ rfl hclear h3

/-- C2 witness: a successful consume on a concrete session leaves no
pending challenge behind. -/
theorem C2_witness :
    (finalSt (authenticateTwoFactor acceptingVerifier true envDemo "Mozilla"
      ccDemo stDemo)).session.challenge = none :=
  (C2_challenge_single_use acceptingVerifier true envDemo "Mozilla" ccDemo stDemo
    userDemo credDemo "ch" rfl rfl rfl (by decide) (by decide)).1

/-- The attestation outcome used to replay an already-registered credential
id ("id1" is already stored for the demo user). -/
def attestDup : Attester :=
  fun _ _ _ _ => .ok true { base64PublicKey := "pk2", base64CredentialID := "id1" }

/-- The user record after the duplicate registration: the same credId twice. -/
def userDemoAfterDup : User :=
  { username := "a@b.c", id := "uid",
    credentials := [credDemo,
      { publicKey := "pk2", credId := "id1", name := "", transports := [],
        creationDate := 99 }] }

/-- C3 (code bug evidence): registering a credential whose verified
credential id equals an already stored credId appends a second entry with
the same credId instead of leaving the sequence unchanged: the duplicate
check of auth.js line 581 reads the property `credID`, which no stored
credential has (the stored key is `credId`, line 586), so it never finds a
match.  The route still answers success. -/
theorem C3_duplicate_credential_appended :
    respOf (registerCredential attestDup envDemo "Mozilla" { id := "x" } 99 stDemo)
      = some { status := 200, user := some userDemoAfterDup }
    ∧ (finalSt (registerCredential attestDup envDemo "Mozilla" { id := "x" } 99 stDemo)).db
        = [userDemoAfterDup]
    ∧ userDemo.credentials.length = 1
    ∧ userDemoAfterDup.credentials.length = 2
    ∧ userDemoAfterDup.credentials.map (fun cred => cred.credId) = ["id1", "id1"] := by
  exact ⟨rfl, rfl, rfl, rfl, rfl⟩

/-- C4 (amended): completing authentication always regenerates the session:
the new token differs from the old one and the old token disappears from
the store; but the transition is not atomic — the callbacks of
req.session.regenerate and req.session.save ignore their err argument, so
when persisting the new session fails the old session is still destroyed,
the new one is not in the store, and the caller is nevertheless told
Complete. -/
theorem C4_complete_regenerates_amended (saveOk : Bool) (st : St)
    (hsent : st.sent = none)
    (hg : (truthyS st.session.username && st.session.isPasswordCorrect) = true)
    (htok : st.token < st.store.nextToken)
    (hfresh : ∀ e ∈ st.store.entries, e.1 < st.store.nextToken) :
    ∃ st2, completeAuthentication saveOk st = .ok st2
      ∧ st2.sent = some completeResp
      ∧ st2.token = st.store.nextToken
      ∧ st2.token ≠ st.token
      ∧ st2.session = { name := some "main", username := st.session.username }
      ∧ (∀ s, (st.token, s) ∉ st2.store.entries)
      ∧ (saveOk = true → (st2.token, st2.session) ∈ st2.store.entries)
      ∧ (saveOk = false → ∀ s, (st2.token, s) ∉ st2.store.entries) :=
  completeAuthentication_spec saveOk st hsent hg htok hfresh

/-- C4 counterexample: on a concrete session whose save fails, the old
token is already gone from the store (the old session does not remain
valid), no new record was persisted, and the caller is still answered with
the 200 Complete response — refuting the claimed atomicity. -/
theorem C4_counterexample :
    ∃ st2, completeAuthentication false stDemo = .ok st2
      ∧ st2.sent = some completeResp
      ∧ stDemo.store.entries = [(0, sessDemo)]
      ∧ st2.store.entries = []
      ∧ st2.token ≠ stDemo.token := by
  exact ⟨_, rfl, rfl, rfl, rfl, by decide⟩

/-- C4 witness: the amended theorem applied to a concrete state with a
succeeding save. -/
theorem C4_witness :
    ∃ st2, completeAuthentication true stDemo = .ok st2
      ∧ st2.sent = some completeResp
      ∧ st2.token = stDemo.store.nextToken
      ∧ st2.token ≠ stDemo.token
      ∧ st2.session = { name := some "main", username := stDemo.session.username }
      ∧ (∀ s, (stDemo.token, s) ∉ st2.store.entries)
      ∧ (true = true → (st2.token, st2.session) ∈ st2.store.entries)
      ∧ (true = false → ∀ s, (st2.token, s) ∉ st2.store.entries) :=
  C4_complete_regenerates_amended true stDemo rfl rfl (by decide) (by decide)

/-- C5: a two-factor assertion submitted on a session whose password flag
is unset or whose username is unset (or empty) is answered with the generic
401 and leaves the session un-promoted: name, username, password flag and
authStatus keep their values, and token, store and user table are untouched
— whatever the verifier would have said about the assertion. -/
theorem C5_flow_skip_rejected (verify : Verifier) (saveOk : Bool) (env : Env)
    (ua : String) (cc : ClientCred) (st : St)
    (hsent : st.sent = none)
    (hflag : st.session.isPasswordCorrect = false ∨ st.session.username = none
      ∨ st.session.username = some "") :
    respOf (authenticateTwoFactor verify saveOk env ua cc st) = some authFailed401
    ∧ (finalSt (authenticateTwoFactor verify saveOk env ua cc st)).store = st.store
    ∧ (finalSt (authenticateTwoFactor verify saveOk env ua cc st)).token = st.token
    ∧ (finalSt (authenticateTwoFactor verify saveOk env ua cc st)).db = st.db
    ∧ (finalSt (authenticateTwoFactor verify saveOk env ua cc st)).session.name
        = st.session.name
    ∧ (finalSt (authenticateTwoFactor verify saveOk env ua cc st)).session.username
        = st.session.username
    ∧ (finalSt (authenticateTwoFactor verify saveOk env ua cc st)).session.isPasswordCorrect
        = st.session.isPasswordCorrect
    ∧ (finalSt (authenticateTwoFactor verify saveOk env ua cc st)).session.authStatus
        = st.session.authStatus := by
  have hg : (truthyS st.session.username && st.session.isPasswordCorrect) = false := by
    rcases hflag with h | h | h
    · rw [h]; exact Bool.and_false _
    · rw [h]; rfl
    · rw [h]; rfl
  exact atf_guardFalse verify saveOk env ua cc st hsent hg

/-- C5 witness: the theorem applied to a concrete session with the password
flag unset, against a verifier that would have accepted the assertion. -/
theorem C5_witness :
    respOf (authenticateTwoFactor acceptingVerifier true envDemo "Mozilla"
      ccDemo stPwFalse) = some authFailed401 :=
  (C5_flow_skip_rejected acceptingVerifier true envDemo "Mozilla" ccDemo stPwFalse
    rfl (Or.inl rfl)).1

/-- C6: getAuthType answers the two-factor policy exactly when the
credential sequence is non-empty and the single-factor policy exactly when
it is empty; as a pure function of the credential list alone this holds for
every list, in particular for the list immediately after any credential
insertion or removal, and no other flag enters the decision. -/
theorem C6_policy_iff_credentials (credentials : List Credential) :
    (getAuthType credentials = authTypes_TWO_FACTOR ↔ credentials ≠ [])
    ∧ (getAuthType credentials = authTypes_SINGLE_FACTOR ↔ credentials = []) := by
  cases credentials with
  | nil =>
    have h0 : getAuthType [] = authTypes_SINGLE_FACTOR := rfl
    rw [h0]
    exact ⟨⟨fun h => absurd h (by decide), fun h => absurd rfl h⟩,
      ⟨fun _ => rfl, fun _ => rfl⟩⟩
  | cons a as =>
    have h1 : getAuthType (a :: as) = authTypes_TWO_FACTOR := by
      simp [getAuthType]
    rw [h1]
    refine ⟨⟨fun _ => List.cons_ne_nil a as, fun _ => rfl⟩, ?_⟩
    exact ⟨fun h => absurd h (by decide), fun h => absurd h (List.cons_ne_nil a as)⟩

/-- C7: a well-formed initialize-authentication request completes directly
when the resolved user has no credential, asks for the second factor (and
records it as pending on the session) when the user has at least one, and
provisions a previously unseen username with an empty credential set
appended to the user table instead of failing. -/
theorem C7_initiate_paths (isEmail : String → Bool) (saveOk : Bool)
    (freshId username password : String) (st : St)
    (hsent : st.sent = none)
    (hvalid : (username != "" && isEmail username && password != "") = true) :
    ((createOrGetUser username freshId st.db).1.credentials = [] →
      respOf (initializeAuthentication isEmail saveOk freshId username password st)
        = some completeResp)
    ∧ ((createOrGetUser username freshId st.db).1.credentials ≠ [] →
      respOf (initializeAuthentication isEmail saveOk freshId username password st)
        = some needSecondResp
      ∧ (finalSt (initializeAuthentication isEmail saveOk freshId username password st)).session.authStatus
          = some authStatuses_NEED_SECOND_FACTOR)
    ∧ (st.db.find? (fun x => x.username == username) = none →
      (createOrGetUser username freshId st.db).1
        = { username := username, id := freshId, credentials := [] }
      ∧ (finalSt (initializeAuthentication isEmail saveOk freshId username password st)).db
          = st.db ++ [{ username := username, id := freshId, credentials := [] }]) := by
  refine ⟨?_, ?_, ?_⟩
  · intro hc
    obtain ⟨st2, heq, h1, _⟩ :=
      initAuth_sfa isEmail saveOk freshId username password st hsent hvalid hc
    rw [heq]
    exact h1
  · intro hc
    obtain ⟨st2, heq, h1, h2, _⟩ :=
      initAuth_2fa isEmail saveOk freshId username password st hsent hvalid hc
    rw [heq]
    exact ⟨h1, h2⟩
  · intro hnone
    have hcg : createOrGetUser username freshId st.db
        = ({ username := username, id := freshId, credentials := [] },
           st.db ++ [{ username := username, id := freshId, credentials := [] }]) := by
      unfold createOrGetUser
      rw [hnone]
    have hc : (createOrGetUser username freshId st.db).1.credentials = [] := by
      rw [hcg]
    obtain ⟨st2, heq, _, _, _, hdb⟩ :=
      initAuth_sfa isEmail saveOk freshId username password st hsent hvalid hc
    refine ⟨by rw [hcg], ?_⟩
    rw [heq]
    rw [hcg] at hdb
    exact hdb

def stEmpty : St :=
  { sent := none, store := { entries := [], nextToken := 1 }, token := 0,
    session := {}, db := [] }

/-- C7 witness: a fresh username on an empty table is provisioned and the
login completes single-factor. -/
theorem C7_witness :
    respOf (initializeAuthentication (fun _ => true) true "fid" "new@x.y" "pw" stEmpty)
      = some completeResp :=
  (C7_initiate_paths (fun _ => true) true "fid" "new@x.y" "pw" stEmpty rfl
    (by decide)).1 (by decide)

/-- The renamed list keeps the credential at the renamed index, with its
name overwritten. -/
theorem setCredName_get (s : String) :
    ∀ (i : Nat) (l : List Credential) (c : Credential),
      l[i]? = some c → (setCredName s i l)[i]? = some { c with name := s } := by
  intro i
  induction i with
  | zero =>
    intro l c h
    cases l with
    | nil => simp at h
    | cons a as =>
      simp only [List.getElem?_cons_zero, Option.some_inj] at h
      simp [setCredName, h]
  | succ n ih =>
    intro l c h
    cases l with
    | nil => simp at h
    | cons a as =>
      simp only [List.getElem?_cons_succ] at h
      simpa [setCredName] using ih as c h

/-- C8: renaming a credential id that is absent from the stored sequence
fails (the write to index -1 throws, answered as a 400 error) and leaves
the stored credentials untouched; renaming an existing credential with the
empty string succeeds with a 200 and stores the empty string as the name. -/
theorem C8_rename (credId newName un : String) (st : St) (user : User)
    (hsent : st.sent = none)
    (hun : st.session.username = some un)
    (hfu : st.db.find? (fun x => x.username == un) = some user) :
    (user.credentials.findIdx? (fun el => el.credId == credId) = none →
      respOf (putCredential credId newName st)
        = some { status := 400, error := some (excMessage .typeError) }
      ∧ (finalSt (putCredential credId newName st)).db = st.db)
    ∧ (∀ i, user.credentials.findIdx? (fun el => el.credId == credId) = some i →
        newName = "" →
        respOf (putCredential credId newName st)
          = some { status := 200,
                   user := some { user with
                     credentials := setCredName "" i user.credentials } }
        ∧ (finalSt (putCredential credId newName st)).db
            = updateCredentials un (setCredName "" i user.credentials) st.db
        ∧ (∀ cOld, user.credentials[i]? = some cOld →
            (setCredName "" i user.credentials)[i]? = some { cOld with name := "" })) := by
  constructor
  · intro hidx
    unfold putCredential
    simp only [hun, findUserByUsername]
    rw [hfu]
    dsimp only
    rw [hidx]
    simp [trySend, hsent, finalSt, respOf]
  · intro i hidx hnew
    unfold putCredential
    simp only [hun, findUserByUsername]
    rw [hfu]
    dsimp only
    rw [hidx, hnew]
    simp only [show (("" : String) == "") = true from rfl, if_pos, trySend, hsent]
    exact ⟨rfl, rfl, fun cOld h => setCredName_get "" i user.credentials cOld h⟩

/-- C8 witness: renaming the stored demo credential with the empty string
stores the empty name and succeeds. -/
theorem C8_witness :
    respOf (putCredential "id1" "" stDemo)
      = some { status := 200,
               user := some { userDemo with
                 credentials := setCredName "" 0 userDemo.credentials } } :=
  ((C8_rename "id1" "" "a@b.c" stDemo userDemo rfl rfl (by decide)).2 0
    (by decide) rfl).1

/-- C9: the expected origin is the canonical android apk-key-hash form,
derived from the configured signing hash alone, exactly for user agents
starting with the native client signature okhttp, and is exactly the
configured web origin for every other user agent (so an unknown or
malformed user agent can never resolve to a wildcard unless the configured
origin itself is one). -/
theorem C9_origin_resolution (env : Env) (ua : String) :
    ("okhttp".data.isPrefixOf ua.data = true →
      getOrigin env ua = "android:apk-key-hash:" ++ base64urlEncode (androidHashBytes env))
    ∧ ("okhttp".data.isPrefixOf ua.data = false → getOrigin env ua = env.ORIGIN)
    ∧ (∀ ua2, "okhttp".data.isPrefixOf ua.data = true →
        "okhttp".data.isPrefixOf ua2.data = true →
        getOrigin env ua = getOrigin env ua2)
    ∧ (env.ORIGIN ≠ "*" → "okhttp".data.isPrefixOf ua.data = false →
        getOrigin env ua ≠ "*") := by
  refine ⟨?_, ?_, ?_, ?_⟩
  · intro h
    unfold getOrigin
    rw [h]
    rfl
  · intro h
    unfold getOrigin
    rw [h]
    rfl
  · intro ua2 h1 h2
    unfold getOrigin
    rw [h1, h2]
  · intro hw h
    unfold getOrigin
    rw [h]
    exact hw

/-- C9 witness: the android branch and the web branch on concrete user
agents and a concrete environment. -/
theorem C9_witness :
    getOrigin envDemo "okhttp/3.12"
      = "android:apk-key-hash:" ++ base64urlEncode (androidHashBytes envDemo)
    ∧ getOrigin envDemo "Mozilla/5.0" = envDemo.ORIGIN :=
  ⟨(C9_origin_resolution envDemo "okhttp/3.12").1 (by decide),
   (C9_origin_resolution envDemo "Mozilla/5.0").2.1 (by decide)⟩

/-- C10: the in-scope password check returns true for every username and
password; consequently a well-formed initialize-authentication request
never fails — it answers Complete or NeedSecondFactor — and on the
two-factor path the session keeps a true password flag. -/
theorem C10_password_never_checked (isEmail : String → Bool) (saveOk : Bool)
    (freshId username password : String) (st : St)
    (hsent : st.sent = none)
    (hvalid : (username != "" && isEmail username && password != "") = true) :
    (∀ u p, isPasswordCorrect u p = true)
    ∧ (respOf (initializeAuthentication isEmail saveOk freshId username password st)
        = some completeResp
      ∨ respOf (initializeAuthentication isEmail saveOk freshId username password st)
        = some needSecondResp)
    ∧ ((createOrGetUser username freshId st.db).1.credentials ≠ [] →
        (finalSt (initializeAuthentication isEmail saveOk freshId username password st)).session.isPasswordCorrect
          = true) := by
  refine ⟨fun _ _ => rfl, ?_, ?_⟩
  · by_cases hc : (createOrGetUser username freshId st.db).1.credentials = []
    · left
      obtain ⟨st2, heq, h1, _⟩ :=
        initAuth_sfa isEmail saveOk freshId username password st hsent hvalid hc
      rw [heq]
      exact h1
    · right
      obtain ⟨st2, heq, h1, _⟩ :=
        initAuth_2fa isEmail saveOk freshId username password st hsent hvalid hc
      rw [heq]
      exact h1
  · intro hc
    obtain ⟨st2, heq, _, _, _, hpw, _⟩ :=
      initAuth_2fa isEmail saveOk freshId username password st hsent hvalid hc
    rw [heq]
    exact hpw

/-- C10 witness: the password check evaluated at an arbitrary concrete
input through the theorem. -/
theorem C10_witness : isPasswordCorrect "someone@x.y" "letmein" = true :=
  (C10_password_never_checked (fun _ => true) true "fid" "a@b.c" "pw" stEmpty rfl
    (by decide)).1 "someone@x.y" "letmein"

end WebauthnTwoFactor
